import Mathlib

/-!
Shallow embedding of the rhoyal-ai-backend transaction classification and
financial snapshot/forecast engine (server.js), with proofs of the
specification claims about it.

Numbers are modelled exactly as rationals (ℚ); JavaScript dynamic values
that the code inspects (typeof checks, NaN, numeric coercion) are modelled
by an explicit `JSVal` type.
-/

set_option allowUnsafeReducibility true

attribute [local semireducible] Rat.mul Rat.add Rat.sub Rat.inv Rat.ofScientific

/-- Subset of JavaScript runtime values the engine inspects: numbers
(including NaN as a separate constructor, since `typeof NaN === "number"`
but `Number(NaN) || 0` yields 0), strings, booleans, `undefined` and
`null`. -/
inductive JSVal where
  | num (q : ℚ)
  | nan
  | str (s : String)
  | bool (b : Bool)
  | undef
  | null
  deriving Repr, DecidableEq

/-- JS `String.prototype.toLowerCase` (ASCII range, the only characters
the engine's keyword tables use). -/
def toLowerStr (s : String) : String := ⟨s.data.map Char.toLower⟩

/-- Strip leading and trailing whitespace from a character list (JS string
trimming as performed by `Number(string)`). -/
def trimChars (cs : List Char) : List Char :=
  ((cs.dropWhile Char.isWhitespace).reverse.dropWhile Char.isWhitespace).reverse

/-- Value of a decimal digit character. -/
def digitVal (c : Char) : ℕ := c.toNat - 48

/-- Fold a digit list into a natural number. -/
def digitsToNat (cs : List Char) : ℕ :=
  cs.foldl (fun a c => a * 10 + digitVal c) 0

/-- All characters are decimal digits. -/
def allDigits (cs : List Char) : Bool := cs.all (fun c => c.isDigit)

/-- Modelled from the source's use of JS `Number(string)`: simplified to
trimmed plain decimal literals (optional sign, digits, optional single
decimal point); the exotic forms (exponents, hex, Infinity) are out of
scope for every input the engine meets.  `none` models NaN. -/
def jsStringToNumber (s : String) : Option ℚ :=
  let cs := trimChars s.toList
  if cs.isEmpty then some 0
  else
    let sgn : ℚ := match cs with
      | '-' :: _ => -1
      | _ => 1
    let rest : List Char := match cs with
      | '-' :: r => r
      | '+' :: r => r
      | r => r
    let ip := rest.takeWhile (fun c => c ≠ '.')
    let rest2 := rest.drop ip.length
    let fp := rest2.drop 1
    if rest2.length ≤ 1 + fp.length && allDigits ip && allDigits fp &&
        !(fp.contains '.') && !(ip.isEmpty && fp.isEmpty) && !rest.isEmpty then
      some (sgn * ((digitsToNat ip : ℚ) + (digitsToNat fp : ℚ) / (10 ^ fp.length)))
    else none

/-- JS `Number(v)`; `none` models NaN. -/
def jsNumber : JSVal → Option ℚ
  | .num q => some q
  | .nan => none
  | .str s => jsStringToNumber s
  | .bool b => some (if b then 1 else 0)
  | .undef => none
  | .null => some 0

/-- JS `Number(v) || 0`: NaN (and 0 itself) collapse to 0. -/
def jsNumberOr0 (v : JSVal) : ℚ := (jsNumber v).getD 0

/-- JS `typeof v === "number"`; true for NaN as well. -/
def typeofNumber : JSVal → Bool
  | .num _ => true
  | .nan => true
  | _ => false

/-- JS `a || b` restricted to strings: the empty string is the only falsy
string. -/
def jsOrStr (a b : String) : String := if a = "" then b else a

/-- JS `hay.includes(needle)`: substring containment. -/
def containsSub (hay needle : String) : Bool :=
  hay.toList.tails.any (fun t => needle.toList.isPrefixOf t)

/-- JS `Math.round`: round half toward positive infinity. -/
def jsRound (q : ℚ) : ℤ := ⌊q + 1 / 2⌋

/-- The fixed, closed set of core budget buckets. -/
inductive CoreCategory where
  | housing
  | foodDining
  | transportation
  | healthFitness
  | lifestyle
  | other
  deriving Repr, DecidableEq

/-- `mapPlaidCategoryToCore(primaryCategory, name)` from server.js: hybrid
keyword mapping from a provider category label and a merchant name to a
core bucket, evaluated as the source's if/else-if chain. -/
def mapPlaidCategoryToCore (primaryCategory name : String) : CoreCategory :=
  let p := toLowerStr primaryCategory
  let n := toLowerStr name
  if containsSub p "rent" || containsSub p "mortgage" || containsSub p "housing" ||
      containsSub p "utilities" || containsSub p "home" then
    .housing
  else if containsSub p "food" || containsSub p "restaurant" || containsSub p "dining" ||
      containsSub p "groceries" || containsSub p "fast food" ||
      containsSub n "grill" || containsSub n "cafe" then
    .foodDining
  else if containsSub p "transportation" || containsSub p "gas" || containsSub p "fuel" ||
      containsSub p "auto" || containsSub p "ride share" || containsSub p "rideshare" ||
      containsSub n "uber" || containsSub n "lyft" then
    .transportation
  else if containsSub p "health" || containsSub p "medical" || containsSub p "pharmacy" ||
      containsSub p "gym" || containsSub p "fitness" then
    .healthFitness
  else if containsSub p "shopping" || containsSub p "entertainment" ||
      containsSub p "subscription" || containsSub p "travel" ||
      containsSub p "recreation" || containsSub p "hobby" then
    .lifestyle
  else
    .other

/-- The five spec rule groups of §4.1, in the spec's priority order, as an
ordered decision list of (predicate over lowered label and name, bucket)
pairs. -/
def ruleGroups : List ((String → String → Bool) × CoreCategory) :=
  [ (fun p _ => containsSub p "rent" || containsSub p "mortgage" || containsSub p "housing" ||
      containsSub p "utilities" || containsSub p "home", .housing),
    (fun p n => containsSub p "food" || containsSub p "restaurant" || containsSub p "dining" ||
      containsSub p "groceries" || containsSub p "fast food" ||
      containsSub n "grill" || containsSub n "cafe", .foodDining),
    (fun p n => containsSub p "transportation" || containsSub p "gas" || containsSub p "fuel" ||
      containsSub p "auto" || containsSub p "ride share" || containsSub p "rideshare" ||
      containsSub n "uber" || containsSub n "lyft", .transportation),
    (fun p _ => containsSub p "health" || containsSub p "medical" || containsSub p "pharmacy" ||
      containsSub p "gym" || containsSub p "fitness", .healthFitness),
    (fun p _ => containsSub p "shopping" || containsSub p "entertainment" ||
      containsSub p "subscription" || containsSub p "travel" ||
      containsSub p "recreation" || containsSub p "hobby", .lifestyle) ]

/-- First-match-wins evaluation of an ordered decision list, falling back
to Other — the classification discipline the spec describes. -/
def firstMatch (p n : String) : List ((String → String → Bool) × CoreCategory) → CoreCategory
  | [] => .other
  | g :: gs => if g.1 p n then g.2 else firstMatch p n gs

/-- The §4.1 Category Classifier contract as the spec words it:
case-insensitive inputs run through the ordered rule groups, first match
wins, fallback Other. -/
def classifySpec (primaryCategory name : String) : CoreCategory :=
  firstMatch (toLowerStr primaryCategory) (toLowerStr name) ruleGroups

/-- A raw Plaid transaction as the engine reads it: `tx.name` (with the
empty string standing for a missing/falsy name), `tx.date`,
`tx.transaction_id`, a dynamic `tx.amount`, the optional
`tx.personal_finance_category?.primary` and the optional legacy
`tx.category` array. -/
structure RawTx where
  transactionId : String
  name : String
  date : String
  amount : JSVal
  pfcPrimary : Option String
  category : Option (List String)
  deriving Repr, DecidableEq

/-- `tx.personal_finance_category?.primary || (Array.isArray(tx.category) ?
tx.category[0] : "") || ""` from server.js. -/
def primaryOf (tx : RawTx) : String :=
  jsOrStr (tx.pfcPrimary.getD "")
    (jsOrStr (match tx.category with
      | some l => l.headD ""
      | none => "") "")

/-- The income test both the snapshot loop and the transactions endpoint
apply verbatim: lowered label contains income/payroll, or lowered name
contains payroll/salary/deposit. -/
def isIncomeTx (primary name : String) : Bool :=
  let primaryLower := toLowerStr primary
  let nameLower := toLowerStr name
  containsSub primaryLower "income" ||
  containsSub primaryLower "payroll" ||
  containsSub nameLower "payroll" ||
  containsSub nameLower "salary" ||
  containsSub nameLower "deposit"

/-- Output record of the `/api/plaid/transactions` normalization. -/
structure NormalizedTx where
  id : String
  name : String
  date : String
  amount : ℚ
  type : String
  deriving Repr, DecidableEq

/-- The per-transaction mapping inside `GET /api/plaid/transactions`
(server.js lines 336-363): coerce the amount, resolve the primary label,
default the name to "Transaction", detect income, and emit a signed amount
with a type tag. -/
def normalizeTx (tx : RawTx) : NormalizedTx :=
  let rawAmount := jsNumberOr0 tx.amount
  let primary := primaryOf tx
  let name := jsOrStr tx.name "Transaction"
  let isIncome := isIncomeTx primary name
  let amount := if isIncome then |rawAmount| else -|rawAmount|
  { id := tx.transactionId, name := name, date := tx.date,
    amount := amount, type := if isIncome then "income" else "spending" }

/-- The hardcoded demo fallback of `GET /api/plaid/transactions`
(server.js lines 369-375), returned when no access token is held. -/
def demoTransactions : List NormalizedTx :=
  [ { id := "tx1", name := "Paycheck", amount := 3200, date := "2025-12-02", type := "income" },
    { id := "tx2", name := "Rent", amount := -1600, date := "2025-12-01", type := "bill" },
    { id := "tx3", name := "Groceries", amount := -120, date := "2025-12-02", type := "spending" } ]

/-- The `GET /api/plaid/transactions` listing: with an access token the
fetched transactions are normalized one by one; without one the demo
fallback is returned. -/
def listTransactions (hasAccessToken : Bool) (txs : List RawTx) : List NormalizedTx :=
  if hasAccessToken then txs.map normalizeTx else demoTransactions

/-- The `categoryTotals` object of `buildPlaidSnapshot`: all six core
buckets always present. -/
structure CategoryTotals where
  housing : ℚ
  foodDining : ℚ
  transportation : ℚ
  lifestyle : ℚ
  healthFitness : ℚ
  other : ℚ
  deriving Repr, DecidableEq

/-- The zero-initialized totals object. -/
def CategoryTotals.zero : CategoryTotals := ⟨0, 0, 0, 0, 0, 0⟩

/-- Read one bucket of the totals object. -/
def getTotal (t : CategoryTotals) : CoreCategory → ℚ
  | .housing => t.housing
  | .foodDining => t.foodDining
  | .transportation => t.transportation
  | .lifestyle => t.lifestyle
  | .healthFitness => t.healthFitness
  | .other => t.other

/-- `categoryTotals[core] += amt` on one bucket. -/
def addTotal (t : CategoryTotals) (c : CoreCategory) (a : ℚ) : CategoryTotals :=
  match c with
  | .housing => { t with housing := t.housing + a }
  | .foodDining => { t with foodDining := t.foodDining + a }
  | .transportation => { t with transportation := t.transportation + a }
  | .lifestyle => { t with lifestyle := t.lifestyle + a }
  | .healthFitness => { t with healthFitness := t.healthFitness + a }
  | .other => { t with other := t.other + a }

/-- Sum of the six bucket values. -/
def sumTotals (t : CategoryTotals) : ℚ :=
  t.housing + t.foodDining + t.transportation + t.lifestyle + t.healthFitness + t.other

/-- One entry of the snapshot's display sample: raw name, signed raw
amount, date, primary label. -/
structure SampleTx where
  name : String
  amount : ℚ
  date : String
  primaryCategory : String
  deriving Repr, DecidableEq

/-- The sample entry `buildPlaidSnapshot` pushes for a transaction. -/
def rawSampleOf (tx : RawTx) : SampleTx :=
  ⟨jsOrStr tx.name "", jsNumberOr0 tx.amount, tx.date, primaryOf tx⟩

/-- Mutable state of the `buildPlaidSnapshot` loop. -/
structure SnapshotState where
  totalIncome : ℚ
  totalSpending : ℚ
  categoryTotals : CategoryTotals
  sample : List SampleTx
  deriving Repr, DecidableEq

/-- One iteration of the `for (const tx of txs)` loop in
`buildPlaidSnapshot` (server.js lines 256-292). -/
def snapshotStep (st : SnapshotState) (tx : RawTx) : SnapshotState :=
  let rawAmount := jsNumberOr0 tx.amount
  let primary := primaryOf tx
  let name := jsOrStr tx.name ""
  let isIncome := isIncomeTx primary name
  let amt := |rawAmount|
  let st1 :=
    if isIncome then
      { st with totalIncome := st.totalIncome + amt }
    else
      { st with totalSpending := st.totalSpending + amt,
                categoryTotals := addTotal st.categoryTotals (mapPlaidCategoryToCore primary name) amt }
  if st1.sample.length < 10 then
    { st1 with sample := st1.sample ++ [rawSampleOf tx] }
  else
    st1

/-- The snapshot object `buildPlaidSnapshot` returns. -/
structure Snapshot where
  startDate : String
  endDate : String
  totalIncomeEstimate : ℚ
  totalSpendingEstimate : ℚ
  categoryTotals : CategoryTotals
  sampleTransactions : List SampleTx
  deriving Repr, DecidableEq

/-- The aggregation core of `buildPlaidSnapshot`: the token/HTTP plumbing
and date-window construction are the out-of-scope collaborator boundary,
so the already-fetched transaction list and the two window dates are
parameters. -/
def buildPlaidSnapshot (startDate endDate : String) (txs : List RawTx) : Snapshot :=
  let st := txs.foldl snapshotStep ⟨0, 0, CategoryTotals.zero, []⟩
  ⟨startDate, endDate, st.totalIncome, st.totalSpending, st.categoryTotals, st.sample⟩

/-- A date-only value (no time-of-day), as produced by
`toISOString().slice(0, 10)`: year, 0-based month (JS convention), 1-based
day. -/
structure JSDate where
  year : ℤ
  month : ℤ
  day : ℤ
  deriving Repr, DecidableEq

/-- Gregorian leap-year test. -/
def isLeapYear (y : ℤ) : Bool :=
  (y % 4 = 0 && y % 100 ≠ 0) || y % 400 = 0

/-- Days in a 0-based month of a given year. -/
def daysInMonth (y m : ℤ) : ℤ :=
  if m = 1 then (if isLeapYear y then 29 else 28)
  else if m = 3 || m = 5 || m = 8 || m = 10 then 30
  else 31

/-- JS `d.setMonth(d.getMonth() + k)` for `k ≥ 0` on a valid calendar
date, truncated to a date-only value: the month index is advanced with
year carry, and a day-of-month that exceeds the new month's length
overflows into the following month exactly as JS normalizes it (a valid
day, at most 31, overflows by at most one month). -/
def addMonthsJS (d : JSDate) (k : ℤ) : JSDate :=
  let t := d.month + k
  let y := d.year + t / 12
  let m := t % 12
  if d.day ≤ daysInMonth y m then ⟨y, m, d.day⟩
  else if m = 11 then ⟨y + 1, 0, d.day - daysInMonth y m⟩
  else ⟨y, m + 1, d.day - daysInMonth y m⟩

/-- A savings goal as submitted by the caller: the three fields the engine
reads, each a dynamic JS value. -/
structure Goal where
  targetAmount : JSVal
  currentAmount : JSVal
  monthlyContribution : JSVal
  deriving Repr, DecidableEq

/-- Result of `computeGoalForecast`; `none` models the `null`
completion date. -/
structure GoalForecast where
  monthsToGoal : ℤ
  projectedCompletionDate : Option JSDate
  deriving Repr, DecidableEq

/-- `computeGoalForecast(goal)` from server.js (lines 139-157), with the
wall-clock `new Date()` passed explicitly as `today`. -/
def computeGoalForecast (today : JSDate) (goal : Goal) : GoalForecast :=
  let target := jsNumberOr0 goal.targetAmount
  let current := jsNumberOr0 goal.currentAmount
  let contrib := jsNumberOr0 goal.monthlyContribution
  let remaining := target - current
  if remaining ≤ 0 ∨ contrib ≤ 0 then
    { monthsToGoal := 0, projectedCompletionDate := none }
  else
    let months := ⌈remaining / contrib⌉
    { monthsToGoal := months, projectedCompletionDate := some (addMonthsJS today months) }

/-- One entry of the caller's `categories` array; only `planned` is read. -/
structure PlanCategory where
  planned : JSVal
  deriving Repr, DecidableEq

/-- The budget state object nested fields: a dynamic `income`,
and `categories` / `goals` which are used only when they are arrays
(`Array.isArray`), modelled by `Option` with `none` for any non-array. -/
structure BudgetState where
  income : JSVal
  categories : Option (List PlanCategory)
  goals : Option (List Goal)
  deriving Repr, DecidableEq

/-- The `req.body?.state` value as the handler's validation sees it:
absent/falsy, present but not of `typeof "object"`, or a structured
object. -/
inductive BudgetStateInput where
  | absent
  | nonObject
  | obj (s : BudgetState)
  deriving Repr, DecidableEq

/-- An output goal of the plan response: the echoed input fields, the
(possibly overwritten) `monthlyContribution`, and the forecast fields,
which are `none` when the branch did not attach them at all. -/
structure PlanGoal where
  targetAmount : JSVal
  currentAmount : JSVal
  monthlyContribution : JSVal
  monthsToGoal : Option ℤ
  projectedCompletionDate : Option (Option JSDate)
  deriving Repr, DecidableEq

/-- The `POST /api/orbit/plan` response body. -/
structure PlanResponse where
  categories : List PlanCategory
  goals : List PlanGoal
  surplus : ℚ
  plannedSpending : ℚ
  plaidSnapshot : Option Snapshot
  orbitInsight : String
  deriving Repr, DecidableEq

/-- `basePlannedSpending`: reduce of `Number(cat.planned) || 0` over the
categories array. -/
def plannedSpendingOf (s : BudgetState) : ℚ :=
  (s.categories.getD []).foldl (fun sum cat => sum + jsNumberOr0 cat.planned) 0

/-- `baseSurplus = income - basePlannedSpending`. -/
def surplusOf (s : BudgetState) : ℚ :=
  jsNumberOr0 s.income - plannedSpendingOf s

/-- `perGoalAmount` of the no-AI-key branch:
`baseSurplus > 0 && baseGoals.length > 0 ?
Math.max(Math.round((baseSurplus * 0.2) / baseGoals.length), 0) : 0`. -/
def perGoalAmountOf (s : BudgetState) : ℚ :=
  if surplusOf s > 0 ∧ (s.goals.getD []).length > 0 then
    ((max (jsRound (surplusOf s * (0.2 : ℚ) / ((s.goals.getD []).length : ℚ))) 0 : ℤ) : ℚ)
  else 0

/-- The goal enrichment of the no-AI-key branch: keep a
`typeof === "number"` contribution, otherwise assign `perGoalAmount`;
then run the forecaster and attach its fields. -/
def enrichGoal (today : JSDate) (s : BudgetState) (goal : Goal) : PlanGoal :=
  let mc : JSVal :=
    if typeofNumber goal.monthlyContribution then goal.monthlyContribution
    else .num (perGoalAmountOf s)
  let forecast := computeGoalForecast today { goal with monthlyContribution := mc }
  { targetAmount := goal.targetAmount, currentAmount := goal.currentAmount,
    monthlyContribution := mc,
    monthsToGoal := some forecast.monthsToGoal,
    projectedCompletionDate := some forecast.projectedCompletionDate }

/-- The goal echo of the AI-key branch, which returns `baseGoals`
untouched: no forecast fields are attached. -/
def echoGoal (goal : Goal) : PlanGoal :=
  { targetAmount := goal.targetAmount, currentAmount := goal.currentAmount,
    monthlyContribution := goal.monthlyContribution,
    monthsToGoal := none, projectedCompletionDate := none }

/-- The `POST /api/orbit/plan` handler (server.js lines 422-488): the
wall clock, the presence of `OPENAI_API_KEY` and the already-built
(possibly failed, hence optional) Plaid snapshot are parameters; the
top-level validation rejects a missing or non-object budget state and
everything nested degrades through the JS coercions. -/
def orbitPlan (today : JSDate) (hasOpenAIKey : Bool) (plaidSnapshot : Option Snapshot)
    (input : BudgetStateInput) : Except String PlanResponse :=
  match input with
  | .absent => .error "Missing or invalid budget state in request body"
  | .nonObject => .error "Missing or invalid budget state in request body"
  | .obj state =>
    let categories := state.categories.getD []
    let baseGoals := state.goals.getD []
    let basePlannedSpending := plannedSpendingOf state
    let baseSurplus := surplusOf state
    if hasOpenAIKey then
      .ok { categories := categories, goals := baseGoals.map echoGoal,
            surplus := baseSurplus, plannedSpending := basePlannedSpending,
            plaidSnapshot := plaidSnapshot,
            orbitInsight := "Orbit route is wired. (AI planning logic can be added next.)" }
    else
      .ok { categories := categories, goals := baseGoals.map (enrichGoal today state),
            surplus := baseSurplus, plannedSpending := basePlannedSpending,
            plaidSnapshot := plaidSnapshot,
            orbitInsight := "Orbit used a simple rule-of-thumb plan (no AI key configured)." }

/-- Whether the handler rejected the request (HTTP 400 path). -/
def isPlanError : Except String PlanResponse → Bool
  | .error _ => true
  | .ok _ => false

/-- A fixed wall-clock date used by the concrete witnesses. -/
def todayFixture : JSDate := ⟨2026, 9, 12⟩

/-- The spec's §8 income-detection example transaction: label "PAYROLL",
name "ACME CORP DIRECT DEP", upstream amount -2500. -/
def payrollTx : RawTx :=
  { transactionId := "t1", name := "ACME CORP DIRECT DEP", date := "2026-10-01",
    amount := .num (-2500), pfcPrimary := some "PAYROLL", category := none }

/-- A plain spending transaction with a housing label. -/
def rentTx : RawTx :=
  { transactionId := "t2", name := "Apartment LLC", date := "2026-10-02",
    amount := .num 1600, pfcPrimary := some "RENT", category := none }

/-- The spec's §8 fallback-distribution example: income 5000, planned
spending 4000, two goals with no explicit contribution. -/
def twoGoalState : BudgetState :=
  { income := .num 5000,
    categories := some [{ planned := .num 4000 }],
    goals := some
      [ { targetAmount := .num 1200, currentAmount := .num 0, monthlyContribution := .undef },
        { targetAmount := .num 600, currentAmount := .num 0, monthlyContribution := .undef } ] }

/-- Same budget but the first goal carries an explicit contribution of 50,
so exactly one goal lacks one. -/
def mixedGoalsState : BudgetState :=
  { income := .num 5000,
    categories := some [{ planned := .num 4000 }],
    goals := some
      [ { targetAmount := .num 1000, currentAmount := .num 0, monthlyContribution := .num 50 },
        { targetAmount := .num 1000, currentAmount := .num 0, monthlyContribution := .undef } ] }

/-- A budget state with a single contribution-less goal. -/
def oneGoalState : BudgetState :=
  { income := .num 5000,
    categories := some [{ planned := .num 4000 }],
    goals := some
      [ { targetAmount := .num 1000, currentAmount := .num 0, monthlyContribution := .undef } ] }

/-- A goal whose contribution is the numeric string "100". -/
def strGoal : Goal :=
  { targetAmount := .num 1200, currentAmount := .num 0, monthlyContribution := .str "100" }

/-- A goal whose contribution is NaN. -/
def nanGoal : Goal :=
  { targetAmount := .num 1200, currentAmount := .num 0, monthlyContribution := .nan }

/-- A budget state whose two goals carry a numeric-string and a NaN
contribution respectively. -/
def typeGoalsState : BudgetState :=
  { income := .num 5000,
    categories := some [{ planned := .num 4000 }],
    goals := some [strGoal, nanGoal] }

/-- A list of fifteen raw transactions, for the sample-cap witness. -/
def fifteenTxs : List RawTx := List.replicate 15 rentTx


theorem sumTotals_addTotal (t : CategoryTotals) (c : CoreCategory) (a : ℚ) :
    sumTotals (addTotal t c a) = sumTotals t + a := by
  cases c <;> simp [sumTotals, addTotal] <;> ring

theorem getTotal_addTotal_self (t : CategoryTotals) (c : CoreCategory) (a : ℚ) :
    getTotal (addTotal t c a) c = getTotal t c + a := by
  cases c <;> rfl

theorem getTotal_addTotal_other (t : CategoryTotals) (c c2 : CoreCategory) (a : ℚ)
    (h : c2 ≠ c) : getTotal (addTotal t c a) c2 = getTotal t c2 := by
  cases c <;> cases c2 <;> simp_all [getTotal, addTotal]

theorem snapshotStep_totals (st : SnapshotState) (tx : RawTx) :
    ((snapshotStep st tx).totalSpending, (snapshotStep st tx).categoryTotals,
      (snapshotStep st tx).totalIncome) =
      if isIncomeTx (primaryOf tx) (jsOrStr tx.name "") then
        (st.totalSpending, st.categoryTotals, st.totalIncome + |jsNumberOr0 tx.amount|)
      else
        (st.totalSpending + |jsNumberOr0 tx.amount|,
         addTotal st.categoryTotals
           (mapPlaidCategoryToCore (primaryOf tx) (jsOrStr tx.name "")) |jsNumberOr0 tx.amount|,
         st.totalIncome) := by
  simp only [snapshotStep]
  by_cases h : isIncomeTx (primaryOf tx) (jsOrStr tx.name "") = true <;>
    simp [h] <;> split <;> exact ⟨rfl, rfl, rfl⟩

theorem snapshotStep_sample (st : SnapshotState) (tx : RawTx) :
    (snapshotStep st tx).sample =
      if st.sample.length < 10 then st.sample ++ [rawSampleOf tx] else st.sample := by
  simp only [snapshotStep]
  by_cases h : isIncomeTx (primaryOf tx) (jsOrStr tx.name "") = true <;> simp [h] <;>
    split <;> rfl

theorem foldl_spending_sub_invariant (txs : List RawTx) (st : SnapshotState) :
    (txs.foldl snapshotStep st).totalSpending
        - sumTotals (txs.foldl snapshotStep st).categoryTotals
      = st.totalSpending - sumTotals st.categoryTotals := by
  induction txs generalizing st with
  | nil => rfl
  | cons tx txs ih =>
    rw [List.foldl_cons, ih]
    have h := snapshotStep_totals st tx
    by_cases hi : isIncomeTx (primaryOf tx) (jsOrStr tx.name "") = true
    · simp only [hi, if_pos, Prod.mk.injEq] at h
      rw [h.1, h.2.1]
    · simp only [hi, Bool.false_eq_true, if_neg, Prod.mk.injEq, not_false_iff] at h
      rw [h.1, h.2.1, sumTotals_addTotal]
      ring

theorem foldl_sample (txs : List RawTx) (st : SnapshotState) (h : st.sample.length ≤ 10) :
    (txs.foldl snapshotStep st).sample = (st.sample ++ txs.map rawSampleOf).take 10 := by
  induction txs generalizing st with
  | nil => simp [List.take_of_length_le h]
  | cons tx txs ih =>
    rw [List.foldl_cons]
    by_cases hlt : st.sample.length < 10
    · have hstep : (snapshotStep st tx).sample = st.sample ++ [rawSampleOf tx] := by
        rw [snapshotStep_sample, if_pos hlt]
      have hlen : (snapshotStep st tx).sample.length ≤ 10 := by
        rw [hstep]; rw [List.length_append]; simp; omega
      rw [ih _ hlen, hstep]
      simp [List.append_assoc]
    · have h10 : st.sample.length = 10 := by omega
      have hstep : (snapshotStep st tx).sample = st.sample := by
        rw [snapshotStep_sample, if_neg hlt]
      rw [ih _ (by rw [hstep]; omega), hstep]
      rw [List.take_append_eq_append_take, List.take_append_eq_append_take]
      simp [h10, List.take_of_length_le]

theorem buildPlaidSnapshot_sample_eq (sd ed : String) (txs : List RawTx) :
    (buildPlaidSnapshot sd ed txs).sampleTransactions = (txs.map rawSampleOf).take 10 := by
  have := foldl_sample txs ⟨0, 0, CategoryTotals.zero, []⟩ (by simp)
  simpa [buildPlaidSnapshot] using this

/-- Claim C4: for every transaction sequence, the snapshot's
`totalSpendingEstimate` equals the sum of the six `categoryTotals` values
exactly (rational arithmetic); an income transaction leaves the category
totals untouched; a non-income transaction adds its magnitude to exactly
the one bucket it classifies into and changes no other bucket. -/
theorem snapshot_spending_equals_category_sum :
    (∀ sd ed txs, (buildPlaidSnapshot sd ed txs).totalSpendingEstimate
        = sumTotals (buildPlaidSnapshot sd ed txs).categoryTotals) ∧
    (∀ st tx, isIncomeTx (primaryOf tx) (jsOrStr tx.name "") = true →
        (snapshotStep st tx).categoryTotals = st.categoryTotals) ∧
    (∀ st tx, isIncomeTx (primaryOf tx) (jsOrStr tx.name "") = false →
        getTotal (snapshotStep st tx).categoryTotals
            (mapPlaidCategoryToCore (primaryOf tx) (jsOrStr tx.name ""))
          = getTotal st.categoryTotals
              (mapPlaidCategoryToCore (primaryOf tx) (jsOrStr tx.name ""))
            + |jsNumberOr0 tx.amount| ∧
        ∀ c, c ≠ mapPlaidCategoryToCore (primaryOf tx) (jsOrStr tx.name "") →
          getTotal (snapshotStep st tx).categoryTotals c = getTotal st.categoryTotals c) := by
  refine ⟨?_, ?_, ?_⟩
  · intro sd ed txs
    show (txs.foldl snapshotStep ⟨0, 0, CategoryTotals.zero, []⟩).totalSpending
        = sumTotals (txs.foldl snapshotStep ⟨0, 0, CategoryTotals.zero, []⟩).categoryTotals
    have h := foldl_spending_sub_invariant txs ⟨0, 0, CategoryTotals.zero, []⟩
    simp only [sumTotals, CategoryTotals.zero] at h ⊢
    linarith [h]
  · intro st tx h
    have hs := snapshotStep_totals st tx
    simp only [h, if_pos, Prod.mk.injEq] at hs
    exact hs.2.1
  · intro st tx h
    have hs := snapshotStep_totals st tx
    simp only [h, Bool.false_eq_true, if_neg, Prod.mk.injEq, not_false_iff] at hs
    refine ⟨?_, ?_⟩
    · rw [hs.2.1, getTotal_addTotal_self]
    · intro c hc
      rw [hs.2.1, getTotal_addTotal_other _ _ _ _ hc]

/-- Witness for C4 at concrete inputs: the payroll transaction is income
and leaves the totals untouched; the rent transaction is spending and its
magnitude lands on its classified bucket. -/
theorem snapshot_spending_equals_category_sum_witness :
    isIncomeTx (primaryOf payrollTx) (jsOrStr payrollTx.name "") = true ∧
    isIncomeTx (primaryOf rentTx) (jsOrStr rentTx.name "") = false ∧
    (snapshotStep ⟨0, 0, CategoryTotals.zero, []⟩ payrollTx).categoryTotals
      = (⟨0, 0, CategoryTotals.zero, []⟩ : SnapshotState).categoryTotals ∧
    getTotal (snapshotStep ⟨0, 0, CategoryTotals.zero, []⟩ rentTx).categoryTotals
        (mapPlaidCategoryToCore (primaryOf rentTx) (jsOrStr rentTx.name ""))
      = getTotal (⟨0, 0, CategoryTotals.zero, []⟩ : SnapshotState).categoryTotals
          (mapPlaidCategoryToCore (primaryOf rentTx) (jsOrStr rentTx.name ""))
        + |jsNumberOr0 rentTx.amount| :=
  ⟨by decide, by decide,
   snapshot_spending_equals_category_sum.2.1 _ payrollTx (by decide),
   (snapshot_spending_equals_category_sum.2.2 _ rentTx (by decide)).1⟩

/-- Claim C8: the snapshot's sample is exactly the first min(10, n) input
transactions in input order, income and spending alike; in particular 15
transactions yield a sample of exactly 10. -/
theorem snapshot_sample_first_ten :
    (∀ sd ed txs, (buildPlaidSnapshot sd ed txs).sampleTransactions
        = (txs.map rawSampleOf).take 10 ∧
      (buildPlaidSnapshot sd ed txs).sampleTransactions.length = min 10 txs.length) ∧
    (∀ sd ed txs, txs.length = 15 →
      (buildPlaidSnapshot sd ed txs).sampleTransactions.length = 10) := by
  constructor
  · intro sd ed txs
    refine ⟨buildPlaidSnapshot_sample_eq sd ed txs, ?_⟩
    rw [buildPlaidSnapshot_sample_eq]
    simp [List.length_take]
  · intro sd ed txs h
    rw [buildPlaidSnapshot_sample_eq]
    simp [List.length_take, h]

/-- Witness for C8: aggregating a concrete list of 15 transactions gives a
sample of exactly 10. -/
theorem snapshot_sample_first_ten_witness :
    fifteenTxs.length = 15 ∧
    (buildPlaidSnapshot "2026-09-12" "2026-10-12" fifteenTxs).sampleTransactions.length = 10 :=
  ⟨by simp [fifteenTxs],
   snapshot_sample_first_ten.2 "2026-09-12" "2026-10-12" fifteenTxs (by simp [fifteenTxs])⟩

/-- Claim C6: the classifier is exactly the spec's ordered decision list —
five rule groups in priority order Housing, Food and Dining,
Transportation, Health and Fitness, Lifestyle, case-insensitive substring
matching, first match wins, fallback Other — so a label containing both
"rent" and "food" always classifies as Housing. -/
theorem classifier_decision_list :
    (∀ p n, mapPlaidCategoryToCore p n = classifySpec p n) ∧
    (∀ p n, containsSub (toLowerStr p) "rent" = true →
      containsSub (toLowerStr p) "food" = true →
      mapPlaidCategoryToCore p n = CoreCategory.housing) := by
  refine ⟨fun _ _ => rfl, ?_⟩
  intro p n h1 _
  simp [mapPlaidCategoryToCore, h1]

/-- Witness for C6: a concrete label containing both "rent" and "food"
classifies as Housing. -/
theorem classifier_decision_list_witness :
    containsSub (toLowerStr "Rent food court") "rent" = true ∧
    containsSub (toLowerStr "Rent food court") "food" = true ∧
    mapPlaidCategoryToCore "Rent food court" "" = CoreCategory.housing :=
  ⟨by decide, by decide,
   classifier_decision_list.2 "Rent food court" "" (by decide) (by decide)⟩

/-- Claim C5: after JS numeric coercion of the three goal fields, the
forecaster returns monthsToGoal 0 with no completion date exactly when
remaining ≤ 0 or the contribution ≤ 0; otherwise it returns the ceiling of
remaining / contribution, which is at least 1, together with a present
date-only completion date; in particular target 1200, current 0,
contribution 100 gives 12 months. -/
theorem goal_forecaster_contract (today : JSDate) (goal : Goal) :
    (jsNumberOr0 goal.targetAmount - jsNumberOr0 goal.currentAmount ≤ 0 ∨
        jsNumberOr0 goal.monthlyContribution ≤ 0 →
      computeGoalForecast today goal = ⟨0, none⟩) ∧
    (0 < jsNumberOr0 goal.targetAmount - jsNumberOr0 goal.currentAmount →
      0 < jsNumberOr0 goal.monthlyContribution →
      (computeGoalForecast today goal).monthsToGoal
          = ⌈(jsNumberOr0 goal.targetAmount - jsNumberOr0 goal.currentAmount)
              / jsNumberOr0 goal.monthlyContribution⌉ ∧
      1 ≤ (computeGoalForecast today goal).monthsToGoal ∧
      ((computeGoalForecast today goal).projectedCompletionDate).isSome = true) ∧
    ((computeGoalForecast today
        ⟨.num 1200, .num 0, .num 100⟩).monthsToGoal = 12 ∧
      ((computeGoalForecast today
        ⟨.num 1200, .num 0, .num 100⟩).projectedCompletionDate).isSome = true) := by
  refine ⟨?_, ?_, ?_⟩
  · intro h
    simp only [computeGoalForecast]
    rw [if_pos h]
  · intro h1 h2
    have hn : ¬(jsNumberOr0 goal.targetAmount - jsNumberOr0 goal.currentAmount ≤ 0 ∨
        jsNumberOr0 goal.monthlyContribution ≤ 0) := by
      push_neg
      exact ⟨h1, h2⟩
    have hc : (0 : ℤ) < ⌈(jsNumberOr0 goal.targetAmount - jsNumberOr0 goal.currentAmount)
        / jsNumberOr0 goal.monthlyContribution⌉ :=
      Int.ceil_pos.mpr (div_pos h1 h2)
    simp only [computeGoalForecast]
    rw [if_neg hn]
    refine ⟨rfl, ?_, rfl⟩
    show (1 : ℤ) ≤ ⌈(jsNumberOr0 goal.targetAmount - jsNumberOr0 goal.currentAmount)
        / jsNumberOr0 goal.monthlyContribution⌉
    omega
  · constructor
    · norm_num [computeGoalForecast, jsNumberOr0, jsNumber]
    · norm_num [computeGoalForecast, jsNumberOr0, jsNumber]

/-- Witness for C5: an already-met goal gives the zero steady state; the
spec's 1200/0/100 example gives at least one month (and exactly 12 by the
third conjunct). -/
theorem goal_forecaster_contract_witness :
    computeGoalForecast todayFixture ⟨.num 500, .num 800, .num 50⟩ = ⟨0, none⟩ ∧
    1 ≤ (computeGoalForecast todayFixture ⟨.num 1200, .num 0, .num 100⟩).monthsToGoal :=
  ⟨(goal_forecaster_contract todayFixture ⟨.num 500, .num 800, .num 50⟩).1 (by decide),
   ((goal_forecaster_contract todayFixture
      ⟨.num 1200, .num 0, .num 100⟩).2.1 (by decide) (by decide)).2.1⟩

/-- Claim C7: a transaction is detected as income exactly when its lowered
primary label contains "income" or "payroll" or its lowered name contains
"payroll", "salary" or "deposit"; an income transaction's normalized
amount is the absolute value of the coerced raw amount, and an income
transaction never touches the category totals. -/
theorem normalizer_income_detection (tx : RawTx) :
    (isIncomeTx (primaryOf tx) (jsOrStr tx.name "Transaction")
      = (containsSub (toLowerStr (primaryOf tx)) "income" ||
         containsSub (toLowerStr (primaryOf tx)) "payroll" ||
         containsSub (toLowerStr (jsOrStr tx.name "Transaction")) "payroll" ||
         containsSub (toLowerStr (jsOrStr tx.name "Transaction")) "salary" ||
         containsSub (toLowerStr (jsOrStr tx.name "Transaction")) "deposit")) ∧
    ((normalizeTx tx).type = "income" ↔
      isIncomeTx (primaryOf tx) (jsOrStr tx.name "Transaction") = true) ∧
    (isIncomeTx (primaryOf tx) (jsOrStr tx.name "Transaction") = true →
      (normalizeTx tx).amount = |jsNumberOr0 tx.amount|) ∧
    (∀ st, isIncomeTx (primaryOf tx) (jsOrStr tx.name "") = true →
      (snapshotStep st tx).categoryTotals = st.categoryTotals) := by
  refine ⟨rfl, ?_, ?_, ?_⟩
  · by_cases h : isIncomeTx (primaryOf tx) (jsOrStr tx.name "Transaction") = true <;>
      simp [normalizeTx, h]
  · intro h
    simp [normalizeTx, h]
  · intro st h
    have hs := snapshotStep_totals st tx
    simp only [h, if_pos, Prod.mk.injEq] at hs
    exact hs.2.1

/-- Witness for C7 at the spec's example: label "PAYROLL", name
"ACME CORP DIRECT DEP", amount -2500 is income with magnitude 2500. -/
theorem normalizer_income_detection_witness :
    isIncomeTx (primaryOf payrollTx) (jsOrStr payrollTx.name "Transaction") = true ∧
    (normalizeTx payrollTx).amount = |jsNumberOr0 payrollTx.amount| ∧
    (normalizeTx payrollTx).type = "income" ∧
    (normalizeTx payrollTx).amount = 2500 :=
  ⟨by decide,
   (normalizer_income_detection payrollTx).2.2.1 (by decide),
   ((normalizer_income_detection payrollTx).2.1).mpr (by decide),
   by decide⟩

/-- Claim C3 counterexample: the demo fallback of the per-transaction
listing (no access token held) contains a record whose type tag is "bill",
which is neither "income" nor "spending". -/
theorem demo_fallback_bill_tag :
    (listTransactions false []).map NormalizedTx.type = ["income", "bill", "spending"] ∧
    (["income", "spending"] : List String).contains "bill" = false :=
  ⟨rfl, by decide⟩

/-- Claim C3 (amended): every record produced by the live normalization
path carries type "income" with amount +|raw| or type "spending" with
amount -|raw|; the demo fallback, by contrast, is three hardcoded records
whose type tags are income, bill, spending. -/
theorem listTransactions_type_and_sign :
    (∀ tx, ((normalizeTx tx).type = "income" ∧ (normalizeTx tx).amount = |jsNumberOr0 tx.amount|) ∨
      ((normalizeTx tx).type = "spending" ∧ (normalizeTx tx).amount = -|jsNumberOr0 tx.amount|)) ∧
    (∀ txs t, t ∈ listTransactions true txs →
      t.type = "income" ∨ t.type = "spending") ∧
    ((listTransactions false []).map NormalizedTx.type = ["income", "bill", "spending"]) := by
  have h1 : ∀ tx : RawTx,
      ((normalizeTx tx).type = "income" ∧ (normalizeTx tx).amount = |jsNumberOr0 tx.amount|) ∨
      ((normalizeTx tx).type = "spending" ∧ (normalizeTx tx).amount = -|jsNumberOr0 tx.amount|) := by
    intro tx
    by_cases h : isIncomeTx (primaryOf tx) (jsOrStr tx.name "Transaction") = true
    · left
      exact ⟨by simp [normalizeTx, h], by simp [normalizeTx, h]⟩
    · right
      exact ⟨by simp [normalizeTx, h], by simp [normalizeTx, h]⟩
  refine ⟨h1, ?_, rfl⟩
  intro txs t ht
  simp only [listTransactions, if_pos, List.mem_map] at ht
  obtain ⟨tx, -, rfl⟩ := ht
  rcases h1 tx with ⟨h, -⟩ | ⟨h, -⟩
  · exact Or.inl h
  · exact Or.inr h

/-- Witness for C3 at a concrete live listing. -/
theorem listTransactions_type_and_sign_witness :
    normalizeTx rentTx ∈ listTransactions true [rentTx] ∧
    ((normalizeTx rentTx).type = "income" ∨ (normalizeTx rentTx).type = "spending") :=
  ⟨by simp [listTransactions],
   listTransactions_type_and_sign.2.1 [rentTx] (normalizeTx rentTx) (by simp [listTransactions])⟩

/-- Claim C9: the plan route rejects exactly the absent or non-object
budget states; every structured-object budget state produces a plan, and a
state whose nested fields are all missing degrades to the zero/empty
plan rather than failing. -/
theorem plan_validation_boundary :
    (∀ today k snap inp, isPlanError (orbitPlan today k snap inp) = true ↔
      (inp = BudgetStateInput.absent ∨ inp = BudgetStateInput.nonObject)) ∧
    (∀ today k snap s, isPlanError (orbitPlan today k snap (BudgetStateInput.obj s)) = false) ∧
    (∀ today k snap, (orbitPlan today k snap (BudgetStateInput.obj ⟨.undef, none, none⟩)).map
        (fun r => (r.surplus, r.plannedSpending, r.categories, r.goals))
      = .ok (0, 0, [], [])) := by
  refine ⟨?_, ?_, ?_⟩
  · intro today k snap inp
    cases inp with
    | absent => simp [orbitPlan, isPlanError]
    | nonObject => simp [orbitPlan, isPlanError]
    | obj s => cases k <;> simp [orbitPlan, isPlanError]
  · intro today k snap s
    cases k <;> rfl
  · intro today k snap
    cases k <;> rfl

/-- Claim C2 counterexample: with the narration collaborator configured
(AI key present), the plan response echoes the input goal with no
monthsToGoal attached, so not every response goal carries the derived
fields. -/
theorem ai_branch_goals_lack_forecast :
    (orbitPlan todayFixture true none (.obj oneGoalState)).map
        (fun r => r.goals.map (fun g => g.monthsToGoal)) = .ok [none] ∧
    (orbitPlan todayFixture true none (.obj oneGoalState)).map
        (fun r => r.goals.map (fun g => g.projectedCompletionDate)) = .ok [none] :=
  ⟨rfl, rfl⟩

/-- Claim C2 (amended): in the fallback path (narration unavailable) every
response goal echoes its input goal with monthlyContribution, monthsToGoal
and projectedCompletionDate attached via the forecaster; in the
narration-configured path the goals are echoed unchanged with no derived
fields attached. -/
theorem plan_goals_enrichment (today : JSDate) (snap : Option Snapshot) (s : BudgetState) :
    ((orbitPlan today true snap (.obj s)).map PlanResponse.goals
        = .ok ((s.goals.getD []).map echoGoal)) ∧
    ((orbitPlan today false snap (.obj s)).map PlanResponse.goals
        = .ok ((s.goals.getD []).map (enrichGoal today s))) ∧
    (∀ g, (enrichGoal today s g).monthsToGoal.isSome = true ∧
      (enrichGoal today s g).projectedCompletionDate.isSome = true ∧
      (enrichGoal today s g).targetAmount = g.targetAmount ∧
      (enrichGoal today s g).currentAmount = g.currentAmount) ∧
    (∀ g, (echoGoal g).monthsToGoal = none ∧ (echoGoal g).projectedCompletionDate = none ∧
      (echoGoal g).targetAmount = g.targetAmount ∧ (echoGoal g).currentAmount = g.currentAmount ∧
      (echoGoal g).monthlyContribution = g.monthlyContribution) :=
  ⟨rfl, rfl, fun _ => ⟨rfl, rfl, rfl, rfl⟩, fun _ => ⟨rfl, rfl, rfl, rfl, rfl⟩⟩

/-- Claim C1 counterexample: income 5000, planned 4000 (surplus 1000), two
goals of which exactly one lacks a numeric contribution. The claim's
formula (divide by the count of goals needing a default, here 1) predicts
200, but the code assigns 100 because it divides by the total goal
count 2. -/
theorem fallback_divisor_counterexample :
    (orbitPlan todayFixture false none (.obj mixedGoalsState)).map
        (fun r => r.goals.map (fun g => g.monthlyContribution)) = .ok [.num 50, .num 100] ∧
    ((max (jsRound (surplusOf mixedGoalsState * (0.2 : ℚ) / 1)) 0 : ℤ) : ℚ) = 200 ∧
    decide ((100 : ℚ) = 200) = false :=
  ⟨rfl, by decide, by decide⟩

/-- Claim C1 (amended): in the fallback path with positive surplus and a
nonempty goal list, every goal lacking a typeof-number contribution is
assigned max(round(surplus * 0.2 / totalGoalCount), 0) where
totalGoalCount is the number of all goals (not just those lacking one),
and every goal with a typeof-number contribution keeps it unchanged. -/
theorem fallback_default_contribution (today : JSDate) (snap : Option Snapshot)
    (s : BudgetState) (h1 : 0 < surplusOf s) (h2 : 0 < (s.goals.getD []).length) :
    (orbitPlan today false snap (.obj s)).map
        (fun r => r.goals.map (fun g => g.monthlyContribution))
      = .ok ((s.goals.getD []).map (fun g =>
          if typeofNumber g.monthlyContribution then g.monthlyContribution
          else .num ((max (jsRound (surplusOf s * (0.2 : ℚ)
              / ((s.goals.getD []).length : ℚ))) 0 : ℤ) : ℚ))) := by
  have hp : perGoalAmountOf s
      = ((max (jsRound (surplusOf s * (0.2 : ℚ) / ((s.goals.getD []).length : ℚ))) 0 : ℤ) : ℚ) := by
    rw [perGoalAmountOf, if_pos ⟨h1, h2⟩]
  have hgoals : (orbitPlan today false snap (.obj s)).map
        (fun r => r.goals.map (fun g => g.monthlyContribution))
      = .ok (((s.goals.getD []).map (enrichGoal today s)).map
          (fun g => g.monthlyContribution)) := rfl
  rw [hgoals, List.map_map]
  congr 1
  apply List.map_congr_left
  intro g _
  simp only [Function.comp_apply, enrichGoal, hp]

/-- Witness for C1 at the spec's own example: surplus 1000, two goals with
no contribution, both get max(round(1000 * 0.2 / 2), 0) = 100. -/
theorem fallback_default_contribution_witness :
    0 < surplusOf twoGoalState ∧
    0 < (twoGoalState.goals.getD []).length ∧
    (orbitPlan todayFixture false none (.obj twoGoalState)).map
        (fun r => r.goals.map (fun g => g.monthlyContribution))
      = .ok ((twoGoalState.goals.getD []).map (fun g =>
          if typeofNumber g.monthlyContribution then g.monthlyContribution
          else .num ((max (jsRound (surplusOf twoGoalState * (0.2 : ℚ)
              / ((twoGoalState.goals.getD []).length : ℚ))) 0 : ℤ) : ℚ))) ∧
    (orbitPlan todayFixture false none (.obj twoGoalState)).map
        (fun r => r.goals.map (fun g => g.monthlyContribution)) = .ok [.num 100, .num 100] :=
  ⟨by decide, by decide,
   fallback_default_contribution todayFixture none twoGoalState (by decide) (by decide),
   rfl⟩

/-- Claim C10: in the fallback path, "explicit" means runtime typeof
number: a numeric-string contribution is treated as lacking and
overwritten with the computed default, while a NaN contribution is
treated as explicit and preserved, whereupon the forecaster coerces it to
0 and yields monthsToGoal 0 with a null completion date. -/
theorem contribution_typeof_number (today : JSDate) (snap : Option Snapshot) (s : BudgetState) :
    ((orbitPlan today false snap (.obj s)).map PlanResponse.goals
        = .ok ((s.goals.getD []).map (enrichGoal today s))) ∧
    (∀ g sv, g.monthlyContribution = JSVal.str sv →
      (enrichGoal today s g).monthlyContribution = .num (perGoalAmountOf s)) ∧
    (∀ g, g.monthlyContribution = JSVal.nan →
      (enrichGoal today s g).monthlyContribution = JSVal.nan ∧
      (enrichGoal today s g).monthsToGoal = some 0 ∧
      (enrichGoal today s g).projectedCompletionDate = some none) := by
  refine ⟨rfl, ?_, ?_⟩
  · intro g sv h
    simp [enrichGoal, h, typeofNumber]
  · intro g h
    refine ⟨?_, ?_, ?_⟩ <;>
      simp [enrichGoal, h, typeofNumber, computeGoalForecast, jsNumberOr0, jsNumber]

/-- Witness for C10 on concrete goals: the "100"-string goal is
overwritten with the computed default, the NaN goal keeps NaN and
forecasts to the zero steady state. -/
theorem contribution_typeof_number_witness :
    strGoal.monthlyContribution = JSVal.str "100" ∧
    (enrichGoal todayFixture typeGoalsState strGoal).monthlyContribution
      = .num (perGoalAmountOf typeGoalsState) ∧
    nanGoal.monthlyContribution = JSVal.nan ∧
    (enrichGoal todayFixture typeGoalsState nanGoal).monthlyContribution = JSVal.nan ∧
    (enrichGoal todayFixture typeGoalsState nanGoal).monthsToGoal = some 0 ∧
    (enrichGoal todayFixture typeGoalsState nanGoal).projectedCompletionDate = some none := by
  have h := contribution_typeof_number todayFixture none typeGoalsState
  exact ⟨rfl, h.2.1 strGoal "100" rfl, rfl, (h.2.2 nanGoal rfl).1,
    (h.2.2 nanGoal rfl).2.1, (h.2.2 nanGoal rfl).2.2⟩
